import Mathlib

/- Shallow embedding of the streaming-acquisition core of
qudi-iqo-modules, file src/qudi/hardware/Fast_ADC/spectrum_instrumentation_ver5.py.

Conventions of the embedding:
* machine integers of the Python source are Nat (all the quantities involved —
  byte offsets, repetition counts, sizes — are non-negative in the source) or
  Int where a difference may be negative (the trigger backlog);
* the DMA ring buffer is a function `buf : Nat -> Int` giving the sample value
  stored at a byte offset (the source casts the raw byte pointer at a byte
  offset to a typed sample pointer, so a read at byte offset p yields the
  samples at offsets p, p + data_bytes_B, ...);
* a Python code path that raises (the unassigned `np_data` in the out-of-range
  branch of `get_new_data`, the unset `avg_data` attribute read by
  `fetch_data_trace`) is an explicit error value (`none` / a dedicated
  constructor);
* floating point sample payloads are exact rationals. -/

namespace SpectrumInstr

/-- CardStatus enum of the source (values 0,1,2,3,-1). -/
inductive CardStatus
  | unconfigured
  | idle
  | running
  | paused
  | error
deriving DecidableEq, Repr

/-! ## Data_transfer: the ring-buffer read layer -/

/-- Geometry fields of class `Data_transfer` (the buffer pointer is passed
separately as a function from byte offset to stored sample).
`seq_size_B = seq_size_S * data_bytes_B` is a derived field, below. -/
structure Data_transfer where
  data_bytes_B : Nat
  seq_size_S : Nat
  reps_per_buf : Nat
deriving DecidableEq, Repr

/-- Derived field `self.seq_size_B = seq_size_S * self.data_bytes_B`. -/
def seq_size_B (dt : Data_transfer) : Nat :=
  dt.seq_size_S * dt.data_bytes_B

/-- `Data_transfer._fetch_from_buf(user_pos_B, sample_S)`: read `sample_S`
samples starting at byte offset `user_pos_B` (pointer cast plus
`np.ctypeslib.as_array`, one sample every `data_bytes_B` bytes). -/
def fetch_from_buf (dt : Data_transfer) (buf : Nat → Int)
    (user_pos_B sample_S : Nat) : List Int :=
  (List.range sample_S).map fun i => buf (user_pos_B + i * dt.data_bytes_B)

/-- `Data_transfer._fetch_data(user_pos_B, curr_avail_reps)`: one contiguous
read of `curr_avail_reps * seq_size_S` samples at byte offset `user_pos_B`. -/
def fetch_data (dt : Data_transfer) (buf : Nat → Int)
    (user_pos_B curr_avail_reps : Nat) : List Int :=
  fetch_from_buf dt buf user_pos_B (curr_avail_reps * dt.seq_size_S)

/-- `Data_transfer._fetch_data_buf_end(user_pos_B, curr_avail_reps)`: the
wraparound split — a tail read up to the buffer end followed by a head read
from offset 0 (`np.append` concatenates them in that order). -/
def fetch_data_buf_end (dt : Data_transfer) (buf : Nat → Int)
    (user_pos_B curr_avail_reps : Nat) : List Int :=
  let start_rep := user_pos_B / seq_size_B dt + 1
  let reps_tail := dt.reps_per_buf - (start_rep - 1)
  let reps_head := curr_avail_reps - reps_tail
  fetch_data dt buf user_pos_B reps_tail ++ fetch_data dt buf 0 reps_head

/-- `Data_transfer.get_new_data(curr_avail_reps, user_pos_B)`. The source
dispatches on `rep_end = int(user_pos_B / seq_size_B) + curr_avail_reps`:
`0 < rep_end <= reps_per_buf` is a contiguous read,
`reps_per_buf < rep_end < 2 * reps_per_buf` the wraparound split; every other
value only prints an error message and then returns the unassigned local
`np_data` (an UnboundLocalError), modelled as `none`. -/
def get_new_data (dt : Data_transfer) (buf : Nat → Int)
    (curr_avail_reps user_pos_B : Nat) : Option (List Int) :=
  let rep_end := user_pos_B / seq_size_B dt + curr_avail_reps
  if 0 < rep_end ∧ rep_end ≤ dt.reps_per_buf then
    some (fetch_data dt buf user_pos_B curr_avail_reps)
  else if dt.reps_per_buf < rep_end ∧ rep_end < 2 * dt.reps_per_buf then
    some (fetch_data_buf_end dt buf user_pos_B curr_avail_reps)
  else
    none

/-- Concrete geometry used by witnesses: 2-byte samples, 100 samples per
repetition (so `seq_size_B = 200`), 4 repetitions per buffer. -/
def dtS : Data_transfer := ⟨2, 100, 4⟩

/-- Concrete buffer contents for witnesses: the sample stored at byte offset
`b` is the integer `b`. -/
def testBuf : Nat → Int := fun b => (b : Int)

/-! ## Averaging engine -/

/-- Modelled from the spec: the cumulative average carrier `AvgData` and the
Averaging Engine's `combine` operation (spec section 4.4). The repository
implements these as `AvgData.update` / `_weighted_avg_data` in
`qudi.hardware.Fast_ADC.si_dataclass`, which is not among the provided source
files — only their callers (`Data_process.update_avg_data`,
`SpectrumInstrumentationTest.check_average`) are. Per-sample mean payloads are
indexed rationals, the repetition count a natural number. -/
structure AvgData where
  num : Nat
  data : Nat → ℚ

/-- Modelled from the spec: `combine(current, new_samples, new_rep_count)` —
if `current.repetition_count == 0` the new batch seeds the average unchanged
(no division); otherwise the weighted per-sample combination
`(cur*n + new*m) / (n + m)` with count `n + m`. -/
def combine (cur nw : AvgData) : AvgData :=
  if cur.num = 0 then nw
  else
    { num := cur.num + nw.num,
      data := fun i =>
        (cur.data i * (cur.num : ℚ) + nw.data i * (nw.num : ℚ)) /
          ((cur.num : ℚ) + (nw.num : ℚ)) }

/-- The current average of the spec scenario: mean `[1.0, 2.0]`, count 10. -/
def curAvg : AvgData := ⟨10, fun i => if i = 0 then 1 else 2⟩

/-- The new batch of the spec scenario: mean `[3.0, 4.0]`, count 5. -/
def newAvg : AvgData := ⟨5, fun i => if i = 0 then 3 else 4⟩

/-! ## Card_command and the check_card_error wrapper -/

/-- `Card_command.enable_trigger`: the driver call yields an error code `e`
(stored into `self._error`); the method then returns the constant `True`. -/
def enable_trigger (e : Int) : Int × Bool := (e, true)

/-- `Card_command.disable_trigger`: stores the driver error code and returns
the constant `False`. -/
def disable_trigger (e : Int) : Int × Bool := (e, false)

/-- Result of a call routed through the `check_card_error` decorator: the
lines it printed, and the wrapped function's return value. -/
structure CheckedCall (α : Type) where
  printed : List String
  value : α

/-- The `check_card_error` decorator: when `self._error_check` is enabled it
prints an error report on a non-zero `self._error` and a no-error note
otherwise (the source prints in both cases), then returns the wrapped
function's value unchanged; when disabled it prints nothing. It never raises
and never alters the value. -/
def check_card_error (error : Int) (error_check : Bool) (value : α) :
    CheckedCall α :=
  if error_check then
    if error ≠ 0 then ⟨["Error " ++ toString error], value⟩
    else ⟨["no error"], value⟩
  else ⟨[], value⟩

/-! ## Card_process / Data_process_commander: the loop decision step -/

/-- The mutable fields of the commander read and written by
`command_process`: the hardware trigger counter and processed-average count
(whose difference is the backlog), the buffer geometry, and the three decision
flags plus the trigger-enabled state. -/
structure CpState where
  trig_counter : Int
  avg_num : Int
  reps_per_buf : Nat
  trigger_enabled : Bool
  wait_trigger_on : Bool
  data_process_on : Bool
deriving DecidableEq, Repr

/-- The three-branch decision of `command_process` on
`unprocessed_reps = trig_counter - avg.num`, returning
`(trigger_on, wait_trigger_on, data_process_on)`:
zero backlog waits with the trigger on, a backlog below `2 * reps_per_buf`
processes with the trigger on, a backlog at or above it processes with the
trigger off. -/
def trigger_decision (unprocessed : Int) (reps_per_buf : Nat) :
    Bool × Bool × Bool :=
  if unprocessed = 0 then (true, true, false)
  else if unprocessed < 2 * (reps_per_buf : Int) then (true, false, true)
  else (false, false, true)

/-- `Card_process._toggle_trigger(trigger_on)`: a no-op when the request
matches the current state, otherwise the enable/disable command's returned
constant becomes the new `trigger_enabled` (`e` is the driver error code of
that call). -/
def toggle_trigger (e : Int) (enabled trigger_on : Bool) : Bool :=
  if trigger_on = enabled then enabled
  else if trigger_on then (enable_trigger e).2
  else (disable_trigger e).2

/-- `Data_process_commander.command_process`, up to and including the
`_toggle_trigger` call (the decision step). The trailing
`self._process_data_with_trigger_off()` call of the source resolves to no
method defined anywhere in the file and does not touch the decision flags. -/
def command_process (e : Int) (s : CpState) : CpState :=
  let t := trigger_decision (s.trig_counter - s.avg_num) s.reps_per_buf
  { s with trigger_enabled := toggle_trigger e s.trigger_enabled t.1,
           wait_trigger_on := t.2.1,
           data_process_on := t.2.2 }

/-- Commander state for the backpressure witness: trigger counter 10, 2
repetitions folded in (backlog 8), 4 repetitions per buffer, trigger
currently enabled. -/
def s0 : CpState := ⟨10, 2, 4, true, false, false⟩

/-! ## Data_fetch_ungated: fetch plus release -/

/-- The fetch layer's state: the transfer geometry and the cumulative released
byte counter `processed_data_B` of `Data_process_command` (initialised to 0 by
`init_dp_params`, incremented by `set_avail_card_len_B`). -/
structure Data_fetch where
  dt : Data_transfer
  processed_data_B : Nat
deriving DecidableEq, Repr

/-- `Data_fetch_ungated.fetch_data_to_dc(curr_avail_reps)`: reads the hardware
cursor (`user_pos_B`, an input here), fetches via `get_new_data`, then calls
`set_avail_card_len_B(curr_avail_reps * seq_size_B)` which adds exactly that
byte count to `processed_data_B`. When `get_new_data` fails, the exception
propagates and the release is never executed (`none`). -/
def fetch_data_to_dc (df : Data_fetch) (buf : Nat → Int)
    (user_pos_B k : Nat) : Option (List Int × Data_fetch) :=
  match get_new_data df.dt buf k user_pos_B with
  | none => none
  | some data =>
      some (data, ⟨df.dt, df.processed_data_B + k * seq_size_B df.dt⟩)

/-- A run: a sequence of fetches, each given by the hardware cursor position
and the available repetition count, threading the fetch state and
concatenating the fetched samples. A failing fetch aborts the run. -/
def run_fetches (buf : Nat → Int) :
    Data_fetch → List (Nat × Nat) → Option (List Int × Data_fetch)
  | df, [] => some ([], df)
  | df, (pos, k) :: rest =>
      match fetch_data_to_dc df buf pos k with
      | none => none
      | some (d, df') =>
          match run_fetches buf df' rest with
          | none => none
          | some (ds, dff) => some (d ++ ds, dff)

/-- Concrete fetch geometry for the release-exactness witness: 1-byte
samples, 2 samples per repetition, 4 repetitions per buffer. -/
def dtW : Data_transfer := ⟨1, 2, 4⟩

/-- Initial fetch state for the witness: nothing released yet. -/
def dfW : Data_fetch := ⟨dtW, 0⟩

/-! ## Data_process_loop: the trace fetch -/

/-- Outcome of `fetch_data_trace`: either the read of `self.avg_data` fails
because the attribute was never assigned, or the stored average and count are
returned. -/
inductive FetchTraceResult
  | attributeError
  | trace (data : List ℚ) (num : Nat)
deriving DecidableEq

/-- The loop-object fields read by `fetch_data_trace`: `avg_data` (`none`
while the attribute is unset — no statement in the measurement path assigns
it), `avg_num` (set to 0 by `init_dp_params`), and the `fetch_on` flag. -/
structure DpLoopState where
  avg_data : Option (List ℚ)
  avg_num : Nat
  fetch_on : Bool
deriving DecidableEq

/-- `Data_process_loop.fetch_data_trace`: sets `fetch_on := True`, reads
`avg_data` and `avg_num`, resets `fetch_on := False` and returns them. When
the `avg_data` read fails, the reset is never reached and `fetch_on` stays
`True`. -/
def fetch_data_trace (s : DpLoopState) : FetchTraceResult × DpLoopState :=
  match s.avg_data with
  | none => (FetchTraceResult.attributeError, { s with fetch_on := true })
  | some d => (FetchTraceResult.trace d s.avg_num, { s with fetch_on := false })

/-- The loop state at measurement start (`init_measure_params` /
`init_dp_params`): `avg_num = 0`, `fetch_on = False`, `avg_data` unset. -/
def init_measure_state : DpLoopState :=
  { avg_data := none, avg_num := 0, fetch_on := false }

/-! ## Controller status operations -/

/-- `SpectrumInstrumentation.stop_measure`: the `if running` guard only gates
the hardware teardown calls; the assignment `_internal_status = idle` after it
is unconditional. -/
def stop_measure (_s : CardStatus) : CardStatus := CardStatus.idle

/-- `SpectrumInstrumentation.pause_measure`: sets the status to paused
unconditionally. -/
def pause_measure (_s : CardStatus) : CardStatus := CardStatus.paused

/-- `SpectrumInstrumentation.continue_measure`: sets the status to running
unconditionally. -/
def continue_measure (_s : CardStatus) : CardStatus := CardStatus.running

/-- `SpectrumInstrumentation.start_measure`: sets the status to running
unconditionally. -/
def start_measure (_s : CardStatus) : CardStatus := CardStatus.running

/-- `SpectrumInstrumentation.get_status`: returns `_internal_status`. -/
def get_status (s : CardStatus) : CardStatus := s

/-! ## Theorems for the ring-buffer claims -/

/-- Claim C1: wraparound fetch. For a cursor inside the buffer with
`reps_per_buf < user_pos_B / seq_size_B + curr_avail_reps < 2 * reps_per_buf`,
`get_new_data` returns the tail read of `reps_per_buf - user_pos_B / seq_size_B`
repetitions starting at `user_pos_B`, followed by the head read of the
remaining repetitions starting at byte offset 0, concatenated in that order. -/
theorem wraparound_fetch (dt : Data_transfer) (buf : Nat → Int) (k pos : Nat)
    (hpos : pos < dt.reps_per_buf * seq_size_B dt)
    (hlo : dt.reps_per_buf < pos / seq_size_B dt + k)
    (hhi : pos / seq_size_B dt + k < 2 * dt.reps_per_buf) :
    get_new_data dt buf k pos =
      some (fetch_data dt buf pos (dt.reps_per_buf - pos / seq_size_B dt) ++
            fetch_data dt buf 0 (k - (dt.reps_per_buf - pos / seq_size_B dt))) := by
  have h1 : ¬ (0 < pos / seq_size_B dt + k ∧ pos / seq_size_B dt + k ≤ dt.reps_per_buf) := by
    omega
  have h2 : dt.reps_per_buf < pos / seq_size_B dt + k ∧
      pos / seq_size_B dt + k < 2 * dt.reps_per_buf := ⟨hlo, hhi⟩
  simp only [get_new_data, if_neg h1, if_pos h2, fetch_data_buf_end,
    Nat.add_sub_cancel]

/-- Witness for C1: the spec scenario — `reps_per_buf = 4`, 100-sample
segments (200 bytes), cursor at repetition 3 (byte 600), 3 available
repetitions: one tail repetition followed by two head repetitions. -/
theorem wraparound_fetch_witness :
    600 < dtS.reps_per_buf * seq_size_B dtS ∧
    dtS.reps_per_buf < 600 / seq_size_B dtS + 3 ∧
    600 / seq_size_B dtS + 3 < 2 * dtS.reps_per_buf ∧
    get_new_data dtS testBuf 3 600 =
      some (fetch_data dtS testBuf 600 1 ++ fetch_data dtS testBuf 0 2) :=
  ⟨by decide, by decide, by decide,
   wraparound_fetch dtS testBuf 3 600 (by decide) (by decide) (by decide)⟩

/-- Claim C7 (amended): contiguous fetch. For `0 < rep_end ≤ reps_per_buf`
(the source's guard excludes `rep_end = 0`), `get_new_data` is a single
contiguous read of `curr_avail_reps` repetitions at byte offset `user_pos_B`. -/
theorem contiguous_fetch (dt : Data_transfer) (buf : Nat → Int) (k pos : Nat)
    (h0 : 0 < pos / seq_size_B dt + k)
    (hR : pos / seq_size_B dt + k ≤ dt.reps_per_buf) :
    get_new_data dt buf k pos = some (fetch_data dt buf pos k) := by
  simp only [get_new_data, if_pos (And.intro h0 hR)]

/-- Witness for C7: cursor at repetition 1 (byte 200), 2 available
repetitions, `rep_end = 3 ≤ 4`: one contiguous read. -/
theorem contiguous_fetch_witness :
    0 < 200 / seq_size_B dtS + 2 ∧ 200 / seq_size_B dtS + 2 ≤ dtS.reps_per_buf ∧
    get_new_data dtS testBuf 2 200 = some (fetch_data dtS testBuf 200 2) :=
  ⟨by decide, by decide, contiguous_fetch dtS testBuf 2 200 (by decide) (by decide)⟩

/-- Counterexample for C7 as stated: at the boundary case `rep_end = 0`
(cursor at byte 0, zero available repetitions) the source does not perform a
contiguous read (which would be the empty read `fetch_data dtS testBuf 0 0`);
it takes the out-of-range error branch. -/
theorem contiguous_fetch_rep_end_zero :
    ¬ get_new_data dtS testBuf 0 0 = some (fetch_data dtS testBuf 0 0) := by
  decide

/-- Claim C4: at `rep_end ≥ 2 * reps_per_buf` (here `600/200 + 5 = 8 = 2*4`)
the fetch yields no data at all — the source prints an error string and then
returns the unassigned local variable (an UnboundLocalError inside the loop
thread), instead of raising a BufferOverrunError retrievable by the
controller. -/
theorem overrun_fetch_no_data : get_new_data dtS testBuf 5 600 = none := by
  decide

/-! ## Theorems for the averaging claims -/

/-- Helper: combining into an empty average returns the new batch unchanged. -/
theorem combine_of_zero (cur nw : AvgData) (h : cur.num = 0) :
    combine cur nw = nw := by
  simp [combine, h]

/-- Helper: combining into a non-empty average is the weighted combination. -/
theorem combine_of_pos (cur nw : AvgData) (h : cur.num ≠ 0) :
    combine cur nw =
      { num := cur.num + nw.num,
        data := fun i =>
          (cur.data i * (cur.num : ℚ) + nw.data i * (nw.num : ℚ)) /
            ((cur.num : ℚ) + (nw.num : ℚ)) } := by
  simp [combine, h]

/-- Claim C2: the averaging combine. An empty current average is seeded by the
new batch unchanged; a non-empty one yields per-sample
`(cur*n + new*m)/(n+m)` with count `n+m`; and the spec scenario
`combine({mean=[1,2], n=10}, {mean=[3,4], n=5})` gives mean `[5/3, 8/3]`
(that is, `[25/15, 40/15]`) with count 15. -/
theorem weighted_average_combine (cur nw : AvgData) (hm : 0 < nw.num) :
    (cur.num = 0 → combine cur nw = nw) ∧
    (0 < cur.num →
      (combine cur nw).num = cur.num + nw.num ∧
      ∀ i, (combine cur nw).data i =
        (cur.data i * (cur.num : ℚ) + nw.data i * (nw.num : ℚ)) /
          ((cur.num : ℚ) + (nw.num : ℚ))) ∧
    ((combine curAvg newAvg).num = 15 ∧
      (combine curAvg newAvg).data 0 = 5 / 3 ∧
      (combine curAvg newAvg).data 1 = 8 / 3) := by
  refine ⟨fun h => combine_of_zero cur nw h, fun h => ?_, ?_, ?_, ?_⟩
  · rw [combine_of_pos cur nw h.ne']
    exact ⟨rfl, fun i => rfl⟩
  · decide
  · simp only [combine, curAvg, newAvg]
    norm_num
  · simp only [combine, curAvg, newAvg]
    norm_num

/-- Witness for C2, at the spec scenario batches (`n = 10 > 0`, `m = 5 > 0`). -/
theorem weighted_average_combine_witness :
    0 < newAvg.num ∧
    ((curAvg.num = 0 → combine curAvg newAvg = newAvg) ∧
     (0 < curAvg.num →
       (combine curAvg newAvg).num = curAvg.num + newAvg.num ∧
       ∀ i, (combine curAvg newAvg).data i =
         (curAvg.data i * (curAvg.num : ℚ) + newAvg.data i * (newAvg.num : ℚ)) /
           ((curAvg.num : ℚ) + (newAvg.num : ℚ))) ∧
     ((combine curAvg newAvg).num = 15 ∧
       (combine curAvg newAvg).data 0 = 5 / 3 ∧
       (combine curAvg newAvg).data 1 = 8 / 3)) :=
  ⟨by decide, weighted_average_combine curAvg newAvg (by decide)⟩

/-- Claim C8: associativity of the averaging combine — over exact rationals
the two temporal-order-preserving groupings agree exactly (hence within any
floating-point tolerance), covering the buffer-wraparound split of claim C1. -/
theorem combine_assoc (A B C : AvgData) :
    (combine (combine A B) C).num = (combine A (combine B C)).num ∧
    ∀ i, (combine (combine A B) C).data i = (combine A (combine B C)).data i := by
  rcases Nat.eq_zero_or_pos A.num with hA | hA
  · rw [combine_of_zero A B hA, combine_of_zero A (combine B C) hA]
    exact ⟨rfl, fun i => rfl⟩
  · have hA' : A.num ≠ 0 := hA.ne'
    have haq : (0 : ℚ) < (A.num : ℚ) := by exact_mod_cast hA
    rcases Nat.eq_zero_or_pos B.num with hB | hB
    · rw [combine_of_zero B C hB, combine_of_pos A B hA',
        combine_of_pos _ C (by simpa [hB] using hA'), combine_of_pos A C hA']
      refine ⟨by simp [hB], fun i => ?_⟩
      have hcq : (0 : ℚ) ≤ (C.num : ℚ) := by positivity
      have hac : (A.num : ℚ) + (C.num : ℚ) ≠ 0 := by positivity
      simp only [hB, Nat.cast_zero, Nat.add_zero, Nat.cast_add]
      field_simp
    · have hB' : B.num ≠ 0 := hB.ne'
      have hbq : (0 : ℚ) < (B.num : ℚ) := by exact_mod_cast hB
      rw [combine_of_pos A B hA', combine_of_pos B C hB',
        combine_of_pos _ C (by simp [hA']), combine_of_pos A _ hA']
      refine ⟨by simp [Nat.add_assoc], fun i => ?_⟩
      have hcq : (0 : ℚ) ≤ (C.num : ℚ) := by positivity
      have hab : (A.num : ℚ) + (B.num : ℚ) ≠ 0 := by positivity
      have hbc : (B.num : ℚ) + (C.num : ℚ) ≠ 0 := by positivity
      have habc : (A.num : ℚ) + ((B.num : ℚ) + (C.num : ℚ)) ≠ 0 := by positivity
      simp only [Nat.cast_add]
      field_simp
      ring

/-! ## Theorems for the loop-decision claims -/

/-- Helper: after `_toggle_trigger(t)` the trigger-enabled state equals `t`,
whatever it was before — either the no-op branch preserves an already-equal
value or the enable/disable command returns the constant `t`. -/
theorem toggle_trigger_eq (e : Int) (enabled t : Bool) :
    toggle_trigger e enabled t = t := by
  cases enabled <;> cases t <;>
    simp [toggle_trigger, enable_trigger, disable_trigger]

/-- Claim C3: the backpressure decision. After the decision step of
`command_process`, the trigger-enabled flag is false exactly when the backlog
`trig_counter - avg_num` is at least `2 * reps_per_buf`; the wait flag is set
exactly at zero backlog and the data-process flag exactly at non-zero
backlog. -/
theorem backpressure_trigger (e : Int) (s : CpState)
    (hR : 0 < s.reps_per_buf) :
    ((command_process e s).trigger_enabled = false ↔
      2 * (s.reps_per_buf : Int) ≤ s.trig_counter - s.avg_num) ∧
    ((command_process e s).wait_trigger_on = true ↔
      s.trig_counter - s.avg_num = 0) ∧
    ((command_process e s).data_process_on = true ↔
      s.trig_counter - s.avg_num ≠ 0) := by
  have hRq : (1 : Int) ≤ (s.reps_per_buf : Int) := by exact_mod_cast hR
  by_cases h0 : s.trig_counter - s.avg_num = 0
  · simp only [command_process, trigger_decision, if_pos h0, toggle_trigger_eq]
    refine ⟨?_, ?_, ?_⟩ <;> simp [h0] <;> omega
  · by_cases h2 : s.trig_counter - s.avg_num < 2 * (s.reps_per_buf : Int)
    · simp only [command_process, trigger_decision, if_neg h0, if_pos h2,
        toggle_trigger_eq]
      refine ⟨?_, ?_, ?_⟩ <;> simp [h0] <;> omega
    · simp only [command_process, trigger_decision, if_neg h0, if_neg h2,
        toggle_trigger_eq]
      refine ⟨?_, ?_, ?_⟩ <;> simp [h0] <;> omega

/-- Witness for C3: with trigger counter 10, 2 repetitions processed and
`reps_per_buf = 4` the backlog is `8 = 2 * 4`, so the decision step disables
the trigger. -/
theorem backpressure_trigger_witness :
    0 < s0.reps_per_buf ∧
    (((command_process 0 s0).trigger_enabled = false ↔
       2 * (s0.reps_per_buf : Int) ≤ s0.trig_counter - s0.avg_num) ∧
     ((command_process 0 s0).wait_trigger_on = true ↔
       s0.trig_counter - s0.avg_num = 0) ∧
     ((command_process 0 s0).data_process_on = true ↔
       s0.trig_counter - s0.avg_num ≠ 0)) :=
  ⟨by decide, backpressure_trigger 0 s0 (by decide)⟩

/-! ## Theorems for the fetch/release claim -/

/-- Helper: any successful `get_new_data` returns exactly
`curr_avail_reps * seq_size_S` samples — the contiguous branch directly, the
wraparound branch as tail plus head repetitions. -/
theorem get_new_data_length (dt : Data_transfer) (buf : Nat → Int)
    (k pos : Nat) (d : List Int) (h : get_new_data dt buf k pos = some d) :
    d.length = k * dt.seq_size_S := by
  simp only [get_new_data] at h
  split at h
  · obtain rfl : fetch_data dt buf pos k = d := Option.some.inj h
    simp [fetch_data, fetch_from_buf]
  · split at h
    · next hcond =>
      obtain rfl : fetch_data_buf_end dt buf pos k = d := Option.some.inj h
      simp only [fetch_data_buf_end, fetch_data, fetch_from_buf,
        List.length_append, List.length_map, List.length_range,
        Nat.add_sub_cancel]
      rw [← Nat.add_mul]
      have := hcond.1
      congr 1
      omega
    · exact absurd h (by simp)

/-- Helper: a successful `fetch_data_to_dc` keeps the transfer geometry,
releases exactly `k * seq_size_B` bytes, and the released byte count equals
the byte count of the data actually fetched. -/
theorem fetch_data_to_dc_spec (df : Data_fetch) (buf : Nat → Int)
    (pos k : Nat) (d : List Int) (df' : Data_fetch)
    (h : fetch_data_to_dc df buf pos k = some (d, df')) :
    df'.dt = df.dt ∧
    df'.processed_data_B = df.processed_data_B + k * seq_size_B df.dt ∧
    d.length * df.dt.data_bytes_B = k * seq_size_B df.dt := by
  simp only [fetch_data_to_dc] at h
  cases hg : get_new_data df.dt buf k pos with
  | none => rw [hg] at h; cases h
  | some data =>
      rw [hg] at h
      injection h with h'
      injection h' with h1 h2
      subst h1
      subst h2
      refine ⟨rfl, rfl, ?_⟩
      rw [get_new_data_length df.dt buf k pos _ hg, seq_size_B, Nat.mul_assoc]

/-- Claim C6: release exactness. Each successful fetch of `k` repetitions is
followed by exactly one release of exactly `k * seq_size_B` bytes — the byte
count of the data fetched — and across any run of fetches the cumulative
released counter `processed_data_B` equals the total number of bytes
fetched. -/
theorem release_exactness :
    (∀ (df : Data_fetch) (buf : Nat → Int) (pos k : Nat) (d : List Int)
       (df' : Data_fetch), fetch_data_to_dc df buf pos k = some (d, df') →
       df'.processed_data_B = df.processed_data_B + k * seq_size_B df.dt ∧
       d.length * df.dt.data_bytes_B = k * seq_size_B df.dt) ∧
    (∀ (df : Data_fetch) (buf : Nat → Int) (reqs : List (Nat × Nat))
       (out : List Int × Data_fetch), run_fetches buf df reqs = some out →
       out.2.processed_data_B =
         df.processed_data_B + out.1.length * df.dt.data_bytes_B) := by
  constructor
  · intro df buf pos k d df' h
    exact (fetch_data_to_dc_spec df buf pos k d df' h).2
  · intro df buf reqs
    induction reqs generalizing df with
    | nil =>
        intro out h
        obtain rfl : (([], df) : List Int × Data_fetch) = out :=
          Option.some.inj h
        simp
    | cons pk rest ih =>
        intro out h
        obtain ⟨pos, k⟩ := pk
        simp only [run_fetches] at h
        cases hf : fetch_data_to_dc df buf pos k with
        | none => simp only [hf] at h; cases h
        | some pair =>
            obtain ⟨d, df'⟩ := pair
            simp only [hf] at h
            cases hr : run_fetches buf df' rest with
            | none => simp only [hr] at h; cases h
            | some pr =>
                obtain ⟨ds, dff⟩ := pr
                simp only [hr] at h
                obtain rfl : ((d ++ ds, dff) : List Int × Data_fetch) = out :=
                  Option.some.inj h
                obtain ⟨hdt, hproc, hlen⟩ :=
                  fetch_data_to_dc_spec df buf pos k d df' hf
                calc dff.processed_data_B
                    = df'.processed_data_B +
                        ds.length * df'.dt.data_bytes_B := ih df' _ hr
                  _ = df.processed_data_B + k * seq_size_B df.dt +
                        ds.length * df.dt.data_bytes_B := by rw [hdt, hproc]
                  _ = df.processed_data_B + d.length * df.dt.data_bytes_B +
                        ds.length * df.dt.data_bytes_B := by rw [hlen]
                  _ = df.processed_data_B +
                        (d.length + ds.length) * df.dt.data_bytes_B := by ring
                  _ = df.processed_data_B +
                        (d ++ ds).length * df.dt.data_bytes_B := by
                        rw [List.length_append]

/-- Witness for C6: two fetches (1 repetition at byte 0, then 2 repetitions
at byte 2) of 2-byte repetitions: 6 bytes fetched, 6 bytes released. -/
theorem release_exactness_witness :
    run_fetches testBuf dfW [(0, 1), (2, 2)] =
      some ([0, 1, 2, 3, 4, 5], ⟨dtW, 6⟩) ∧
    (⟨dtW, 6⟩ : Data_fetch).processed_data_B =
      dfW.processed_data_B +
        ([0, 1, 2, 3, 4, 5] : List Int).length * dfW.dt.data_bytes_B :=
  ⟨by decide,
   release_exactness.2 dfW testBuf [(0, 1), (2, 2)]
     ([0, 1, 2, 3, 4, 5], ⟨dtW, 6⟩) (by decide)⟩

/-! ## Theorems for the zero-state fetch claim -/

/-- Claim C5 (amended): while `avg_data` is unset — as it is before any
repetition has been processed — `fetch_data_trace` does not return any
result, zero-filled or sentinel: the attribute read fails and the call leaves
`fetch_on` stuck at true. -/
theorem zero_state_fetch_fails (s : DpLoopState) (h : s.avg_data = none) :
    (fetch_data_trace s).1 = FetchTraceResult.attributeError ∧
    (fetch_data_trace s).2.fetch_on = true := by
  simp [fetch_data_trace, h]

/-- Witness for the amended C5: the initial measurement state has
`avg_num = 0` and an unset `avg_data`. -/
theorem zero_state_fetch_fails_witness :
    init_measure_state.avg_data = none ∧
    ((fetch_data_trace init_measure_state).1 =
       FetchTraceResult.attributeError ∧
     (fetch_data_trace init_measure_state).2.fetch_on = true) :=
  ⟨rfl, zero_state_fetch_fails init_measure_state rfl⟩

/-- Counterexample for C5 as stated: at the start of a measurement (cumulative
repetition count 0) the trace fetch does not return an explicit no-data
sentinel result — the `avg_data` read fails, and the failure even skips the
`fetch_on` reset. -/
theorem zero_state_fetch_no_sentinel :
    init_measure_state.avg_num = 0 ∧
    (fetch_data_trace init_measure_state).1 =
      FetchTraceResult.attributeError ∧
    (fetch_data_trace init_measure_state).2.fetch_on = true := by
  decide

/-! ## Theorems for the controller status claim -/

/-- Counterexample for C9 as stated: `stop_measure` — a public operation
other than an explicit reset — moves the status out of the Error state, to
idle. -/
theorem stop_measure_exits_error :
    stop_measure CardStatus.error = CardStatus.idle ∧
    CardStatus.idle ≠ CardStatus.error := by
  decide

/-- Claim C9 (amended): the controller operations set `_internal_status`
unconditionally — stop to idle, pause to paused, continue and start to
running — whatever the prior status; in particular each of stop, pause and
continue leaves the Error state, and none of these operations ever produces
the Error status. -/
theorem controller_status_unconditional (s : CardStatus) :
    stop_measure s = CardStatus.idle ∧
    pause_measure s = CardStatus.paused ∧
    continue_measure s = CardStatus.running ∧
    start_measure s = CardStatus.running ∧
    get_status s = s ∧
    stop_measure s ≠ CardStatus.error ∧
    pause_measure s ≠ CardStatus.error ∧
    continue_measure s ≠ CardStatus.error ∧
    start_measure s ≠ CardStatus.error := by
  refine ⟨rfl, rfl, rfl, rfl, rfl, ?_, ?_, ?_, ?_⟩ <;>
    simp [stop_measure, pause_measure, continue_measure, start_measure]

/-! ## Theorems for the trigger-command claim -/

/-- Counterexample for C10 as stated: with error checking enabled the
`check_card_error` wrapper prints even on a zero error code (the no-error
note), so it does not print only on a non-zero error. -/
theorem check_card_error_prints_on_zero :
    (check_card_error 0 true true).printed = ["no error"] ∧
    ["no error"] ≠ ([] : List String) := by
  decide

/-- Claim C10 (amended): `enable_trigger` returns `True` and
`disable_trigger` returns `False` unconditionally — constants independent of
the driver error code — and the `check_card_error` wrapper never alters the
wrapped value; it prints nothing exactly when error checking is disabled
(when enabled it prints on every call: an error report on non-zero error, a
no-error note otherwise). -/
theorem trigger_commands_and_wrapper (e : Int) (chk : Bool) {α : Type}
    (v : α) :
    (enable_trigger e).2 = true ∧
    (disable_trigger e).2 = false ∧
    (check_card_error e chk v).value = v ∧
    ((check_card_error e chk v).printed = [] ↔ chk = false) := by
  refine ⟨rfl, rfl, ?_, ?_⟩ <;>
    by_cases hc : chk <;> by_cases he : e = 0 <;>
      simp [check_card_error, hc, he]

end SpectrumInstr
